import Mathlib

/-
Verification development for the ECHO conversational-tutor client.

The development shallowly embeds the voice turn-taking orchestrator of the
repository:

  * the tutor-client functions of src/services/geminiService.ts
    (sendMessageToTutor, startChatSession) as total functions over explicit
    oracles for the network outcome and the JSON parse outcome, and
  * the session controller of src/screens/ChatScreen.tsx as an executable
    event-step machine over the component state
    (sessionActive, isProcessing, isListening, isSpeaking, inputText,
    chatHistory) plus the refs and timers the handlers use.

Abstraction notes (stated once here, referenced below):
  * Date.now based ids and timestamps are abstracted to fixed values; no
    property below depends on them.
  * A capture instance whose stop() was requested is absorbed: its late
    asynchronous onend event (whose only effect, setIsListening(false), the
    code already performs synchronously in stopListening) is not re-delivered.
  * speechSynthesis.cancel() is modelled as dropping the current utterance
    without delivering further engine events for it.
  * The per-message replay button, which re-speaks a turn that is already
    committed in the transcript, is outside the modelled event alphabet.
-/

namespace Echo

/-- Speaker of a chat message, from types.ts (role: user | model). -/
inductive Role where
  | user
  | model
deriving DecidableEq, Repr

/-- Structured correction attached to tutor turns, from types.ts. -/
structure Correction where
  original : String
  corrected : String
  explanation : String
deriving DecidableEq, Repr

/-- One transcript turn, ChatMessage from types.ts. -/
structure Msg where
  id : String
  role : Role
  text : String
  timestamp : Nat
  correction : Option Correction := none
deriving DecidableEq, Repr

/-- Outcome oracle for the chat.sendMessage network call: the promise either
rejects (network or model error) or resolves with result.text, which the SDK
types as string or undefined. -/
inductive NetOutcome where
  | reject
  | resolve (text : Option String)
deriving DecidableEq, Repr

/-- Outcome oracle for JSON.parse on the cleaned response text: either the
parse throws, or it yields an object whose response and correction fields may
each be absent. -/
inductive ParseOutcome where
  | parseFail
  | parseOk (response : Option String) (correction : Option Correction)
deriving DecidableEq, Repr

/-- Failure kinds of the tutor exchange prior to the fallback handlers. -/
inductive ExchangeError where
  | networkError
  | parseError
deriving DecidableEq, Repr

/-- Result object of sendMessageToTutor:
{ text; correction? }. The text field mirrors json.response, which at runtime
may be absent when the parsed object lacks a response key. -/
structure TutorReply where
  text : Option String
  correction : Option Correction
deriving DecidableEq, Repr

/-- Result object of startChatSession: { text }. -/
structure StartReply where
  text : String
deriving DecidableEq, Repr

/-- JavaScript String.prototype.trim, modelled explicitly over the character
list: strip leading and trailing whitespace. -/
def jsTrim (s : String) : String :=
  String.mk (((s.data.dropWhile Char.isWhitespace).reverse.dropWhile
      Char.isWhitespace).reverse)

/-- Markdown code-fence cleaner used on model responses in geminiService.ts:
responseText.replace(three-backticks-json or three-backticks, empty).trim().
The backtick is written with an escape; the regex alternation is modelled by
two sequential global replacements. -/
def stripFences (s : String) : String :=
  jsTrim ((s.replace "\x60\x60\x60json" "").replace "\x60\x60\x60" "")

/-- History entry sent to the model: the role/parts projection built in
sendMessageToTutor from each ChatMessage. -/
structure HistoryEntry where
  role : String
  text : String
deriving DecidableEq, Repr

/-- Projection of a ChatMessage to a request history entry, from
sendMessageToTutor: role is the string user for user turns and model
otherwise, parts carry the text. -/
def toHistoryEntry (m : Msg) : HistoryEntry :=
  { role := if m.role = Role.user then "user" else "model", text := m.text }

/-- The bounded history window sent with every exchange, from
sendMessageToTutor: history.slice(-10).map(...). JavaScript slice(-10) keeps
the last ten elements (all of them when fewer), which is List.drop of
(length - 10) under truncated subtraction. -/
def recentHistory (history : List Msg) : List HistoryEntry :=
  (history.drop (history.length - 10)).map toHistoryEntry

/-- The request sent to the model for one tutor exchange: the bounded history
window plus the new user utterance. -/
structure TutorRequest where
  history : List HistoryEntry
  message : String
deriving DecidableEq, Repr

/-- Request construction performed by sendMessageToTutor before the network
call. -/
def buildTutorRequest (history : List Msg) (message : String) : TutorRequest :=
  { history := recentHistory history, message := message }

/-- Fallback reply text returned by sendMessageToTutor when the network call
rejects. -/
def connectFallback : String :=
  "Sorry, I\x27m having trouble connecting right now. Please try again later."

/-- Fallback reply text returned by sendMessageToTutor when result.text is
absent or empty. -/
def understandFallback : String :=
  "I\x27m having trouble understanding. Could you repeat that?"

/-- Fallback reply text returned by sendMessageToTutor when no API key is
configured. -/
def noKeyFallback : String :=
  "Please configure your API Key to chat with ECHO."

/-- Body of the try block of sendMessageToTutor, before its catch handlers
are applied: the network call may reject (networkError). On resolve, a falsy
result.text yields the understanding fallback; otherwise the cleaned text is
JSON-parsed, a parse throw is handled by the inner catch which returns the
cleaned raw text, and a successful parse returns json.response and
json.correction as they are. -/
def exchangeAttempt (history : List Msg) (message : String)
    (net : NetOutcome) (parse : String → ParseOutcome) :
    Except ExchangeError TutorReply :=
  match net with
  | NetOutcome.reject => Except.error ExchangeError.networkError
  | NetOutcome.resolve none =>
      Except.ok { text := some understandFallback, correction := none }
  | NetOutcome.resolve (some raw) =>
      if raw = "" then
        Except.ok { text := some understandFallback, correction := none }
      else
        let cleaned := stripFences raw
        match parse cleaned with
        | ParseOutcome.parseFail =>
            Except.ok { text := some cleaned, correction := none }
        | ParseOutcome.parseOk resp corr =>
            Except.ok { text := resp, correction := corr }

/-- sendMessageToTutor from geminiService.ts. A missing API key returns the
key fallback; the outer catch converts every rejection of the attempt into
the connection fallback, so the returned promise always resolves. -/
def sendMessageToTutor (apiKeyPresent : Bool) (history : List Msg)
    (message : String) (net : NetOutcome) (parse : String → ParseOutcome) :
    Except ExchangeError TutorReply :=
  if apiKeyPresent = false then
    Except.ok { text := some noKeyFallback, correction := none }
  else
    match exchangeAttempt history message net parse with
    | Except.error _ =>
        Except.ok { text := some connectFallback, correction := none }
    | Except.ok r => Except.ok r

/-- Greeting used by startChatSession when no API key is configured. -/
def noKeyGreeting (userName : String) : String :=
  "Hello " ++ userName ++ ". I am your English tutor. Let\x27s begin our lesson."

/-- Greeting used by the catch handler of startChatSession. -/
def errorGreeting (userName : String) : String :=
  "Hello " ++ userName ++ ", I am ready to help you practice English."

/-- Default greeting used when the parsed object has a falsy response field. -/
def welcomeGreeting : String :=
  "Welcome to your English lesson. Shall we begin?"

/-- Body of the try block of startChatSession: the network call may reject;
on resolve the cleaned text (or the literal two-character empty-object text
when result.text is absent or cleans to empty) is JSON-parsed inside the try,
so a parse throw propagates (parseError) to the outer catch; on success
json.response-or-welcome is returned (the or is JavaScript truthiness, so an
empty response string also falls back). -/
def startAttempt (userName level : String) (net : NetOutcome)
    (parse : String → ParseOutcome) : Except ExchangeError StartReply :=
  match net with
  | NetOutcome.reject => Except.error ExchangeError.networkError
  | NetOutcome.resolve txt =>
      let responseText :=
        match txt with
        | none => "\x7b\x7d"
        | some raw => if stripFences raw = "" then "\x7b\x7d" else stripFences raw
      match parse responseText with
      | ParseOutcome.parseFail => Except.error ExchangeError.parseError
      | ParseOutcome.parseOk resp _ =>
          match resp with
          | none => Except.ok { text := welcomeGreeting }
          | some r => Except.ok { text := if r = "" then welcomeGreeting else r }

/-- startChatSession from geminiService.ts. A missing API key returns the key
greeting; the catch converts every rejection of the attempt into the error
greeting, so the returned promise always resolves. -/
def startChatSession (apiKeyPresent : Bool) (userName level : String)
    (net : NetOutcome) (parse : String → ParseOutcome) :
    Except ExchangeError StartReply :=
  if apiKeyPresent = false then
    Except.ok { text := noKeyGreeting userName }
  else
    match startAttempt userName level net parse with
    | Except.error _ => Except.ok { text := errorGreeting userName }
    | Except.ok r => Except.ok r

/-- A synthesis utterance held by synthesisRef together with whether its
onstart event has fired; hasCb records whether speak was given the
onEndCallback that re-arms listening. -/
structure Utt where
  text : String
  hasCb : Bool
  started : Bool
deriving DecidableEq, Repr

/-- Component state of ChatScreen.tsx: the four session booleans, the input
text, the global chatHistory store, and the refs and timers the handlers
use. pendingStart and pendingExchange record awaited startChatSession and
sendMessageToTutor calls; pendingExchange stores the closure values captured
when handleSend was invoked: (chatHistory, textToSend, sessionActive). The
captured sessionActive is what the post-await code of handleSend reads, not
the value current at resolution time; it is always true in practice, since
the start overlay makes sends unreachable while the session is inactive. -/
structure ChatState where
  sessionActive : Bool
  isProcessing : Bool
  isListening : Bool
  isSpeaking : Bool
  inputText : String
  chatHistory : List Msg
  pendingStart : Bool
  pendingExchange : Option (List Msg × String × Bool)
  utterance : Option Utt
  settleTimer : Option Nat
  recogActive : Bool
deriving DecidableEq, Repr

/-- Commands the controller issues to its collaborators. -/
inductive Cmd where
  | startSessionCmd
  | exchangeCmd (history : List Msg) (message : String)
  | speakCmd (text : String)
  | cancelSynthCmd
  | recogStartCmd
  | recogStopCmd
  | alertCmd (message : String)
deriving DecidableEq, Repr

/-- Events driving the controller: user actions, resolutions of the awaited
tutor calls, and the asynchronous speech-engine callbacks. -/
inductive Event where
  | startSession
  | startResolve (text : String)
  | exchangeResolve (text : Option String) (correction : Option Correction)
  | synthStart
  | synthEnd
  | synthError
  | settleFire
  | recogStart
  | recogResult (t : String)
  | recogEnd
  | recogError (err : String)
  | autoSend
  | micClick
  | resetClick
deriving DecidableEq, Repr

/-- User message committed by handleSend (ids and timestamps abstracted). -/
def mkUserMsg (text : String) : Msg :=
  { id := "", role := Role.user, text := text, timestamp := 0 }

/-- Tutor message committed by handleSend and handleStartSession. The machine
commits response.text as the code does; an absent text field is committed as
the empty string at this boundary. -/
def mkBotMsg (text : Option String) (corr : Option Correction) : Msg :=
  { id := "", role := Role.model, text := text.getD "", timestamp := 0,
    correction := corr }

/-- speak from ChatScreen.tsx: cancel anything current, install the new
utterance, and hand it to the synthesis engine. -/
def speakStep (s : ChatState) (text : String) (hasCb : Bool) :
    ChatState × List Cmd :=
  ({ s with utterance := some { text := text, hasCb := hasCb, started := false } },
   [Cmd.cancelSynthCmd, Cmd.speakCmd text])

/-- startListening from ChatScreen.tsx: stop an overlapping instance if one
exists, create a fresh recognition instance and start it; isListening is set
only by the onstart callback. -/
def startListeningStep (s : ChatState) : ChatState × List Cmd :=
  if s.recogActive then
    ({ s with recogActive := true }, [Cmd.recogStopCmd, Cmd.recogStartCmd])
  else
    ({ s with recogActive := true }, [Cmd.recogStartCmd])

/-- stopListening from ChatScreen.tsx: request stop on the current instance
if any and clear isListening synchronously. -/
def stopListeningStep (s : ChatState) : ChatState × List Cmd :=
  ({ s with isListening := false, recogActive := false },
   if s.recogActive then [Cmd.recogStopCmd] else [])

/-- handleStartSession up to its await: activate the session, set processing
and issue the startChatSession call. -/
def handleStartSessionStep (s : ChatState) : ChatState × List Cmd :=
  ({ s with sessionActive := true, isProcessing := true, pendingStart := true },
   [Cmd.startSessionCmd])

/-- handleSend up to its await: guard against empty input and an in-flight
exchange, commit the user turn, clear the input, stop the microphone, set
processing and issue the exchange carrying the closure-captured values: the
render-time chatHistory (which does not yet contain the new user turn), the
utterance, and the invocation-time sessionActive that the post-await code
will read. -/
def handleSendStep (s : ChatState) : ChatState × List Cmd :=
  if jsTrim s.inputText = "" ∨ s.isProcessing = true then (s, [])
  else
    let textToSend := s.inputText
    let s1 := { s with
      chatHistory := s.chatHistory ++ [mkUserMsg textToSend],
      inputText := "" }
    let s2 := { s1 with isListening := false, recogActive := false }
    let stopCmds := if s.recogActive then [Cmd.recogStopCmd] else []
    ({ s2 with isProcessing := true,
               pendingExchange := some (s.chatHistory, textToSend, s.sessionActive) },
     stopCmds ++ [Cmd.exchangeCmd s.chatHistory textToSend])

/-- Condition of the auto-send useEffect in ChatScreen.tsx (lines 251 to
259): recognition has ended, a non-empty utterance is present, the session is
active and neither an exchange nor synthesis is in flight. -/
def autoSendCond (s : ChatState) : Prop :=
  s.isListening = false ∧ jsTrim s.inputText ≠ "" ∧ s.sessionActive = true ∧
  s.isProcessing = false ∧ s.isSpeaking = false

instance (s : ChatState) : Decidable (autoSendCond s) := by
  unfold autoSendCond
  infer_instance

/-- Action taken by the auto-send bridge between end-of-speech and sending. -/
inductive AutoSendAction where
  | noAction
  | armDebounce (ms : Nat)
  | sendNow
deriving DecidableEq, Repr

/-- The auto-send useEffect of src/screens/ChatScreen.tsx: when its condition
holds it arms a 1000 ms debounce timer whose expiry calls handleSend (and the
effect cleanup clears the timer when a dependency changes). -/
def autoSendEffect (s : ChatState) : AutoSendAction :=
  if autoSendCond s then AutoSendAction.armDebounce 1000 else AutoSendAction.noAction

/-- The auto-send useEffect of the src/unnamed/part_004 variant of the
screen: when the same condition holds it calls handleSend immediately. -/
def autoSendEffectImmediate (s : ChatState) : AutoSendAction :=
  if autoSendCond s then AutoSendAction.sendNow else AutoSendAction.noAction

/-- One controller step for each event, assembled from the handlers of
ChatScreen.tsx. The autoSend event is the firing of the debounce timer, whose
condition still holds at expiry because any dependency change clears it. The
speak guard in the exchangeResolve branch reads the sessionActive value
captured when handleSend was invoked (stored in pendingExchange), because the
code reads the invocation-time closure value there, not the state current at
resolution time. -/
def step (s : ChatState) (e : Event) : ChatState × List Cmd :=
  match e with
  | Event.startSession =>
      if s.sessionActive = true then (s, []) else handleStartSessionStep s
  | Event.startResolve text =>
      if s.pendingStart = true then
        let s1 := { s with pendingStart := false,
                           chatHistory := s.chatHistory ++ [mkBotMsg (some text) none] }
        let p := speakStep s1 text true
        ({ p.1 with isProcessing := false }, p.2)
      else (s, [])
  | Event.exchangeResolve text corr =>
      match s.pendingExchange with
      | none => (s, [])
      | some (_, _, cap) =>
          let s1 := { s with pendingExchange := none,
                             chatHistory := s.chatHistory ++ [mkBotMsg text corr] }
          if cap = true then
            let p := speakStep s1 (text.getD "") true
            ({ p.1 with isProcessing := false }, p.2)
          else
            ({ s1 with isProcessing := false }, [])
  | Event.synthStart =>
      match s.utterance with
      | some u =>
          if u.started = true then (s, [])
          else ({ s with utterance := some { u with started := true },
                         isSpeaking := true }, [])
      | none => (s, [])
  | Event.synthEnd =>
      match s.utterance with
      | some u =>
          if u.started = true then
            ({ s with utterance := none, isSpeaking := false,
                      settleTimer := if u.hasCb then some 500 else s.settleTimer },
             [])
          else (s, [])
      | none => (s, [])
  | Event.synthError =>
      match s.utterance with
      | some u =>
          ({ s with utterance := none, isSpeaking := false,
                    settleTimer := if u.hasCb then some 500 else s.settleTimer },
           [])
      | none => (s, [])
  | Event.settleFire =>
      match s.settleTimer with
      | some _ => startListeningStep { s with settleTimer := none }
      | none => (s, [])
  | Event.recogStart =>
      if s.recogActive = true then ({ s with isListening := true }, [])
      else (s, [])
  | Event.recogResult t =>
      if s.recogActive = true then ({ s with inputText := t }, [])
      else (s, [])
  | Event.recogEnd =>
      if s.recogActive = true then
        ({ s with isListening := false, recogActive := false }, [])
      else (s, [])
  | Event.recogError err =>
      if s.recogActive = true then
        if err = "not-allowed" then
          ({ s with sessionActive := false, isListening := false,
                    recogActive := false },
           [Cmd.alertCmd "Microphone access denied. Please enable permissions."])
        else
          ({ s with isListening := false, recogActive := false }, [])
      else (s, [])
  | Event.autoSend =>
      if autoSendCond s then handleSendStep s else (s, [])
  | Event.micClick =>
      if s.sessionActive = false then handleStartSessionStep s
      else if s.isListening = true then stopListeningStep s
      else startListeningStep s
  | Event.resetClick =>
      ({ s with utterance := none, chatHistory := [], sessionActive := false },
       [Cmd.cancelSynthCmd])

/-- Freshly mounted ChatScreen: the mount effect has cleared the chat. -/
def initState : ChatState :=
  { sessionActive := false, isProcessing := false, isListening := false,
    isSpeaking := false, inputText := "", chatHistory := [],
    pendingStart := false, pendingExchange := none, utterance := none,
    settleTimer := none, recogActive := false }

/-- Run a sequence of events, discarding the emitted commands. -/
def run (s : ChatState) (es : List Event) : ChatState :=
  es.foldl (fun s e => (step s e).1) s

/-- Events of the autonomous conversational loop: everything except the
manual mic toggle, the reset button and a permission-denied capture error
(each of which can interleave with in-flight synthesis or input left over
from an aborted capture). -/
def autonomousB : Event → Bool
  | Event.micClick => false
  | Event.resetClick => false
  | Event.recogError err => !(err == "not-allowed")
  | _ => true

/-- A state reachable from the freshly mounted screen by autonomous-loop
events only. -/
def ReachableLoop (s : ChatState) : Prop :=
  ∃ es : List Event, es.all autonomousB = true ∧ run initState es = s

/-- Whether the synthesis engine has started the current utterance. -/
def uttStarted (s : ChatState) : Bool :=
  match s.utterance with
  | some u => u.started
  | none => false

/-- At most one of isListening, isSpeaking, isProcessing is set, and an
inactive session has all three cleared. -/
def MutexOK (s : ChatState) : Prop :=
  (¬(s.isListening = true ∧ s.isSpeaking = true)) ∧
  (¬(s.isListening = true ∧ s.isProcessing = true)) ∧
  (¬(s.isSpeaking = true ∧ s.isProcessing = true)) ∧
  (s.sessionActive = false →
    s.isListening = false ∧ s.isSpeaking = false ∧ s.isProcessing = false)

/-- Inductive invariant of the autonomous loop. -/
structure Inv (s : ChatState) : Prop where
  procEq : s.isProcessing = (s.pendingStart || s.pendingExchange.isSome)
  notBoth : ¬(s.pendingStart = true ∧ s.pendingExchange.isSome = true)
  procQuiet : s.isProcessing = true →
    s.utterance = none ∧ s.recogActive = false ∧ s.settleTimer = none ∧
    jsTrim s.inputText = "" ∧ s.isListening = false ∧ s.isSpeaking = false ∧
    s.sessionActive = true
  uttQuiet : s.utterance.isSome = true →
    jsTrim s.inputText = "" ∧ s.sessionActive = true
  settleQuiet : s.settleTimer.isSome = true →
    s.utterance = none ∧ s.isSpeaking = false ∧ s.isProcessing = false ∧
    s.recogActive = false ∧ jsTrim s.inputText = "" ∧ s.sessionActive = true ∧
    s.settleTimer = some 500
  recogQuiet : s.recogActive = true →
    s.utterance = none ∧ s.isSpeaking = false ∧ s.isProcessing = false ∧
    s.settleTimer = none ∧ s.sessionActive = true
  spkEq : s.isSpeaking = uttStarted s
  inactiveQuiet : s.sessionActive = false →
    s.pendingStart = false ∧ s.pendingExchange = none ∧ s.utterance = none ∧
    s.recogActive = false ∧ s.settleTimer = none ∧ s.isListening = false ∧
    s.isSpeaking = false ∧ s.isProcessing = false ∧ jsTrim s.inputText = ""
  lisRecog : s.isListening = true → s.recogActive = true
  pendCap : s.pendingExchange.all (fun p => p.2.2) = true

/-- One started session whose greeting was spoken, after which the user said
Hi and the auto-send fired: the exchange is in flight. -/
def c1Trace : List Event :=
  [Event.startSession, Event.startResolve "Hello!", Event.synthStart,
   Event.synthEnd, Event.settleFire, Event.recogStart, Event.recogResult "Hi",
   Event.recogEnd, Event.autoSend]

/-- State with a tutor exchange in flight. -/
def c1State : ChatState := run initState c1Trace

/-- Like c1Trace but with the user utterance I am fine and a reset press
after the auto-send, so the exchange is in flight while the session is
stopped and the transcript cleared. -/
def c2Trace : List Event :=
  [Event.startSession, Event.startResolve "Hi there", Event.synthStart,
   Event.synthEnd, Event.settleFire, Event.recogStart,
   Event.recogResult "I am fine", Event.recogEnd, Event.autoSend,
   Event.resetClick]

/-- Stopped session with a tutor exchange still in flight. -/
def c2State : ChatState := run initState c2Trace

/-- State right after the start-session click: the greeting call is awaited. -/
def c3State : ChatState := run initState [Event.startSession]

/-- Event sequence in which the user presses the mic toggle while the
greeting is being spoken, then recognition starts. -/
def c4Trace : List Event :=
  [Event.startSession, Event.startResolve "Hello!", Event.synthStart,
   Event.micClick, Event.recogStart]

/-- One full autonomous conversational cycle and the start of the next
listening phase. -/
def c4LoopTrace : List Event :=
  [Event.startSession, Event.startResolve "Hello! Tell me about your day.",
   Event.synthStart, Event.synthEnd, Event.settleFire, Event.recogStart,
   Event.recogResult "I are happy", Event.recogEnd, Event.autoSend,
   Event.exchangeResolve (some "Nice! I am happy.")
     (some { original := "I are happy", corrected := "I am happy",
             explanation := "subject-verb agreement" }),
   Event.synthStart, Event.synthEnd, Event.settleFire, Event.recogStart]

/-- State in which the greeting utterance is currently being spoken. -/
def c5State : ChatState :=
  run initState [Event.startSession, Event.startResolve "Hello!", Event.synthStart]

/-- State right after synthesis of the greeting completed: the settle timer
is armed. -/
def c5SettleState : ChatState :=
  run initState [Event.startSession, Event.startResolve "Hello!",
                 Event.synthStart, Event.synthEnd]

/-- Active idle session whose capture finalized a whitespace-only utterance. -/
def c6State : ChatState :=
  { initState with sessionActive := true, inputText := "   " }

/-- Active session with a live recognition instance. -/
def c7State : ChatState :=
  { initState with sessionActive := true, recogActive := true,
                   isListening := true }

/-- Active idle session holding a finalized non-empty utterance with
recognition ended and no exchange or synthesis in flight. -/
def c8State : ChatState :=
  { initState with sessionActive := true, inputText := "Hello there" }

@[simp] theorem jsTrim_empty : jsTrim "" = "" := rfl

theorem inv_initState : Inv initState := by
  constructor <;> simp [initState, uttStarted]

theorem mutex_of_inv (s : ChatState) (h : Inv s) : MutexOK s := by
  obtain ⟨h1, h2, h3, h4, h5, h6, h7, h8, h9, h10⟩ := h
  refine ⟨?_, ?_, ?_, ?_⟩
  · rintro ⟨hl, hs⟩
    exact absurd hs (by simp [(h6 (h9 hl)).2.1])
  · rintro ⟨hl, hp⟩
    exact absurd hp (by simp [(h6 (h9 hl)).2.2.1])
  · rintro ⟨hs, hp⟩
    exact absurd hs (by simp [(h3 hp).2.2.2.2.2.1])
  · intro hsa
    obtain ⟨_, _, _, _, _, hl, hs, hp, _⟩ := h8 hsa
    exact ⟨hl, hs, hp⟩

set_option maxHeartbeats 1600000 in
theorem inv_step (s : ChatState) (e : Event) (h : Inv s)
    (ha : autonomousB e = true) : Inv (step s e).1 := by
  obtain ⟨h1, h2, h3, h4, h5, h6, h7, h8, h9, h10⟩ := h
  cases e with
  | startSession =>
      cases hsa : s.sessionActive with
      | true =>
          have hst : (step s Event.startSession).1 = s := by simp [step, hsa]
          rw [hst]; exact ⟨h1, h2, h3, h4, h5, h6, h7, h8, h9, h10⟩
      | false =>
          obtain ⟨q1, q2, q3, q4, q5, q6, q7, q8, q9⟩ := h8 hsa
          have hst : (step s Event.startSession).1 =
              { s with sessionActive := true, isProcessing := true,
                       pendingStart := true } := by
            simp [step, hsa, handleStartSessionStep]
          rw [hst]
          constructor <;> simp_all [uttStarted]
  | startResolve text =>
      cases hps : s.pendingStart with
      | false =>
          have hst : (step s (Event.startResolve text)).1 = s := by
            simp [step, hps]
          rw [hst]; exact ⟨h1, h2, h3, h4, h5, h6, h7, h8, h9, h10⟩
      | true =>
          have hproc : s.isProcessing = true := by simp [h1, hps]
          obtain ⟨q1, q2, q3, q4, q5, q6, q7⟩ := h3 hproc
          have hpx : s.pendingExchange = none := by
            cases hx : s.pendingExchange with
            | none => rfl
            | some p => exact absurd ⟨hps, by simp [hx]⟩ h2
          have hst : (step s (Event.startResolve text)).1 =
              { s with pendingStart := false,
                       chatHistory := s.chatHistory ++ [mkBotMsg (some text) none],
                       utterance := some { text := text, hasCb := true, started := false },
                       isProcessing := false } := by
            simp [step, hps, speakStep]
          rw [hst]
          constructor <;> simp_all [uttStarted]
  | exchangeResolve text corr =>
      cases hpe : s.pendingExchange with
      | none =>
          have hst : (step s (Event.exchangeResolve text corr)).1 = s := by
            simp [step, hpe]
          rw [hst]; exact ⟨h1, h2, h3, h4, h5, h6, h7, h8, h9, h10⟩
      | some p =>
          obtain ⟨hist0, msg0, cap⟩ := p
          have hproc : s.isProcessing = true := by simp [h1, hpe]
          obtain ⟨q1, q2, q3, q4, q5, q6, q7⟩ := h3 hproc
          have hps : s.pendingStart = false := by
            cases hx : s.pendingStart with
            | false => rfl
            | true => exact absurd ⟨hx, by simp [hpe]⟩ h2
          have hcap : cap = true := by simpa [hpe] using h10
          have hst : (step s (Event.exchangeResolve text corr)).1 =
              { s with pendingExchange := none,
                       chatHistory := s.chatHistory ++ [mkBotMsg text corr],
                       utterance := some { text := text.getD "", hasCb := true, started := false },
                       isProcessing := false } := by
            simp [step, hpe, hcap, speakStep]
          rw [hst]
          constructor <;> simp_all [uttStarted]
  | synthStart =>
      cases hu : s.utterance with
      | none =>
          have hst : (step s Event.synthStart).1 = s := by simp [step, hu]
          rw [hst]; exact ⟨h1, h2, h3, h4, h5, h6, h7, h8, h9, h10⟩
      | some u =>
          cases hus : u.started with
          | true =>
              have hst : (step s Event.synthStart).1 = s := by simp [step, hu, hus]
              rw [hst]; exact ⟨h1, h2, h3, h4, h5, h6, h7, h8, h9, h10⟩
          | false =>
              obtain ⟨q1, q2⟩ := h4 (by simp [hu])
              have hproc : s.isProcessing = false := by
                cases hp : s.isProcessing with
                | false => rfl
                | true => exact absurd (h3 hp).1 (by simp [hu])
              have hrec : s.recogActive = false := by
                cases hr : s.recogActive with
                | false => rfl
                | true => exact absurd (h6 hr).1 (by simp [hu])
              have hset : s.settleTimer = none := by
                cases hx : s.settleTimer with
                | none => rfl
                | some n => exact absurd (h5 (by simp [hx])).1 (by simp [hu])
              have hlis : s.isListening = false := by
                cases hl : s.isListening with
                | false => rfl
                | true => exact absurd (h9 hl) (by simp [hrec])
              have hst : (step s Event.synthStart).1 =
                  { s with utterance := some { u with started := true },
                           isSpeaking := true } := by
                simp [step, hu, hus]
              rw [hst]
              constructor <;> simp_all [uttStarted]
  | synthEnd =>
      cases hu : s.utterance with
      | none =>
          have hst : (step s Event.synthEnd).1 = s := by simp [step, hu]
          rw [hst]; exact ⟨h1, h2, h3, h4, h5, h6, h7, h8, h9, h10⟩
      | some u =>
          cases hus : u.started with
          | false =>
              have hst : (step s Event.synthEnd).1 = s := by simp [step, hu, hus]
              rw [hst]; exact ⟨h1, h2, h3, h4, h5, h6, h7, h8, h9, h10⟩
          | true =>
              obtain ⟨q1, q2⟩ := h4 (by simp [hu])
              have hproc : s.isProcessing = false := by
                cases hp : s.isProcessing with
                | false => rfl
                | true => exact absurd (h3 hp).1 (by simp [hu])
              have hrec : s.recogActive = false := by
                cases hr : s.recogActive with
                | false => rfl
                | true => exact absurd (h6 hr).1 (by simp [hu])
              have hset : s.settleTimer = none := by
                cases hx : s.settleTimer with
                | none => rfl
                | some n => exact absurd (h5 (by simp [hx])).1 (by simp [hu])
              have hlis : s.isListening = false := by
                cases hl : s.isListening with
                | false => rfl
                | true => exact absurd (h9 hl) (by simp [hrec])
              cases hcb : u.hasCb with
              | true =>
                  have hst : (step s Event.synthEnd).1 =
                      { s with utterance := none, isSpeaking := false,
                               settleTimer := some 500 } := by
                    simp [step, hu, hus, hcb]
                  rw [hst]
                  constructor <;> simp_all [uttStarted]
              | false =>
                  have hst : (step s Event.synthEnd).1 =
                      { s with utterance := none, isSpeaking := false } := by
                    simp [step, hu, hus, hcb]
                  rw [hst]
                  constructor <;> simp_all [uttStarted]
  | synthError =>
      cases hu : s.utterance with
      | none =>
          have hst : (step s Event.synthError).1 = s := by simp [step, hu]
          rw [hst]; exact ⟨h1, h2, h3, h4, h5, h6, h7, h8, h9, h10⟩
      | some u =>
          obtain ⟨q1, q2⟩ := h4 (by simp [hu])
          have hproc : s.isProcessing = false := by
            cases hp : s.isProcessing with
            | false => rfl
            | true => exact absurd (h3 hp).1 (by simp [hu])
          have hrec : s.recogActive = false := by
            cases hr : s.recogActive with
            | false => rfl
            | true => exact absurd (h6 hr).1 (by simp [hu])
          have hset : s.settleTimer = none := by
            cases hx : s.settleTimer with
            | none => rfl
            | some n => exact absurd (h5 (by simp [hx])).1 (by simp [hu])
          have hlis : s.isListening = false := by
            cases hl : s.isListening with
            | false => rfl
            | true => exact absurd (h9 hl) (by simp [hrec])
          cases hcb : u.hasCb with
          | true =>
              have hst : (step s Event.synthError).1 =
                  { s with utterance := none, isSpeaking := false,
                           settleTimer := some 500 } := by
                simp [step, hu, hcb]
              rw [hst]
              constructor <;> simp_all [uttStarted]
          | false =>
              have hst : (step s Event.synthError).1 =
                  { s with utterance := none, isSpeaking := false } := by
                simp [step, hu, hcb]
              rw [hst]
              constructor <;> simp_all [uttStarted]
  | settleFire =>
      cases hx : s.settleTimer with
      | none =>
          have hst : (step s Event.settleFire).1 = s := by simp [step, hx]
          rw [hst]; exact ⟨h1, h2, h3, h4, h5, h6, h7, h8, h9, h10⟩
      | some n =>
          obtain ⟨q1, q2, q3, q4, q5, q6, q7⟩ := h5 (by simp [hx])
          have hlis : s.isListening = false := by
            cases hl : s.isListening with
            | false => rfl
            | true => exact absurd (h9 hl) (by simp [q4])
          have hst : (step s Event.settleFire).1 =
              { s with settleTimer := none, recogActive := true } := by
            simp [step, hx, startListeningStep, q4]
          rw [hst]
          constructor <;> simp_all [uttStarted]
  | recogStart =>
      cases hr : s.recogActive with
      | false =>
          have hst : (step s Event.recogStart).1 = s := by simp [step, hr]
          rw [hst]; exact ⟨h1, h2, h3, h4, h5, h6, h7, h8, h9, h10⟩
      | true =>
          obtain ⟨q1, q2, q3, q4, q5⟩ := h6 hr
          have hst : (step s Event.recogStart).1 =
              { s with isListening := true } := by
            simp [step, hr]
          rw [hst]
          constructor <;> simp_all [uttStarted]
  | recogResult t =>
      cases hr : s.recogActive with
      | false =>
          have hst : (step s (Event.recogResult t)).1 = s := by simp [step, hr]
          rw [hst]; exact ⟨h1, h2, h3, h4, h5, h6, h7, h8, h9, h10⟩
      | true =>
          obtain ⟨q1, q2, q3, q4, q5⟩ := h6 hr
          have hst : (step s (Event.recogResult t)).1 =
              { s with inputText := t } := by
            simp [step, hr]
          rw [hst]
          constructor <;> simp_all [uttStarted]
  | recogEnd =>
      cases hr : s.recogActive with
      | false =>
          have hst : (step s Event.recogEnd).1 = s := by simp [step, hr]
          rw [hst]; exact ⟨h1, h2, h3, h4, h5, h6, h7, h8, h9, h10⟩
      | true =>
          obtain ⟨q1, q2, q3, q4, q5⟩ := h6 hr
          have hst : (step s Event.recogEnd).1 =
              { s with isListening := false, recogActive := false } := by
            simp [step, hr]
          rw [hst]
          constructor <;> simp_all [uttStarted]
  | recogError err =>
      cases hr : s.recogActive with
      | false =>
          have hst : (step s (Event.recogError err)).1 = s := by simp [step, hr]
          rw [hst]; exact ⟨h1, h2, h3, h4, h5, h6, h7, h8, h9, h10⟩
      | true =>
          have herr : ¬(err = "not-allowed") := by
            simpa [autonomousB] using ha
          obtain ⟨q1, q2, q3, q4, q5⟩ := h6 hr
          have hst : (step s (Event.recogError err)).1 =
              { s with isListening := false, recogActive := false } := by
            simp [step, hr, herr]
          rw [hst]
          constructor <;> simp_all [uttStarted]
  | autoSend =>
      by_cases hc : autoSendCond s
      · obtain ⟨c1, c2, c3, c4, c5⟩ := hc
        have hutt : s.utterance = none := by
          cases hu : s.utterance with
          | none => rfl
          | some u => exact absurd (h4 (by simp [hu])).1 c2
        have hset : s.settleTimer = none := by
          cases hx : s.settleTimer with
          | none => rfl
          | some n => exact absurd (h5 (by simp [hx])).2.2.2.2.1 c2
        have hor : (s.pendingStart || s.pendingExchange.isSome) = false :=
          h1.symm.trans c4
        have hps : s.pendingStart = false := by
          cases hx : s.pendingStart with
          | false => rfl
          | true => simp [hx] at hor
        have hpx : s.pendingExchange = none := by
          cases hx : s.pendingExchange with
          | none => rfl
          | some p => simp [hx] at hor
        have hst : (step s Event.autoSend).1 =
            { s with chatHistory := s.chatHistory ++ [mkUserMsg s.inputText],
                     inputText := "", isListening := false, recogActive := false,
                     isProcessing := true,
                     pendingExchange :=
                       some (s.chatHistory, s.inputText, s.sessionActive) } := by
          simp [step, autoSendCond, c1, c2, c3, c4, c5, handleSendStep]
        rw [hst]
        clear hst
        constructor <;> simp_all [uttStarted]
      · have hst : (step s Event.autoSend).1 = s := by simp [step, hc]
        rw [hst]; exact ⟨h1, h2, h3, h4, h5, h6, h7, h8, h9, h10⟩
  | micClick => simp [autonomousB] at ha
  | resetClick => simp [autonomousB] at ha

theorem inv_run (s : ChatState) (es : List Event) (h : Inv s)
    (ha : es.all autonomousB = true) : Inv (run s es) := by
  induction es generalizing s with
  | nil => simpa [run] using h
  | cons e es ih =>
      simp only [List.all_cons, Bool.and_eq_true] at ha
      have h1 := inv_step s e h ha.1
      simpa [run, List.foldl_cons] using ih (step s e).1 h1 ha.2

theorem inv_reachable (s : ChatState) (h : ReachableLoop s) : Inv s := by
  obtain ⟨es, ha, hrun⟩ := h
  exact hrun ▸ inv_run initState es inv_initState ha

/-- C1 (counterexample): with the session awaiting a reply and the network
call rejecting, sendMessageToTutor resolves with the connection-fallback
reply instead of rejecting, and delivering that resolution commits a tutor
Turn to the transcript and issues the speak command with no alert, refuting
that a failed exchange leaves the transcript unchanged, avoids Speaking and
surfaces a recoverable error. -/
theorem C1_counterexample :
    sendMessageToTutor true [mkBotMsg (some "Hello!") none] "Hi"
        NetOutcome.reject (fun _ => ParseOutcome.parseFail) =
      Except.ok { text := some connectFallback, correction := none } ∧
    c1State.pendingExchange.isSome = true ∧
    (step c1State (Event.exchangeResolve (some connectFallback) none)).1.chatHistory =
      c1State.chatHistory ++ [mkBotMsg (some connectFallback) none] ∧
    (step c1State (Event.exchangeResolve (some connectFallback) none)).2 =
      [Cmd.cancelSynthCmd, Cmd.speakCmd connectFallback] := by
  refine ⟨rfl, rfl, rfl, rfl⟩

/-- C1 (amended): the tutor exchange never rejects: a network failure
resolves with the fixed connection-fallback reply text, while a JSON-parse
failure resolves with the cleaned raw response text; in either case the
controller commits the resolved text to the transcript as a tutor Turn and
speaks it like any normal reply, surfacing no alert; the catch branch of
handleSend is unreachable and the user can only retry by sending again. -/
theorem C1_exchange_failure_resolves_and_commits :
    (∀ (hist : List Msg) (msg : String) (parse : String → ParseOutcome),
      sendMessageToTutor true hist msg NetOutcome.reject parse =
        Except.ok { text := some connectFallback, correction := none }) ∧
    (∀ (hist : List Msg) (msg raw : String) (parse : String → ParseOutcome),
      raw ≠ "" → parse (stripFences raw) = ParseOutcome.parseFail →
      sendMessageToTutor true hist msg (NetOutcome.resolve (some raw)) parse =
        Except.ok { text := some (stripFences raw), correction := none }) ∧
    (∀ (s : ChatState) (hist0 : List Msg) (msg0 : String) (t : Option String)
        (corr : Option Correction),
      s.pendingExchange = some (hist0, msg0, true) →
      (step s (Event.exchangeResolve t corr)).1.chatHistory =
        s.chatHistory ++ [mkBotMsg t corr] ∧
      (step s (Event.exchangeResolve t corr)).2 =
        [Cmd.cancelSynthCmd, Cmd.speakCmd (t.getD "")]) := by
  refine ⟨fun hist msg parse => rfl, ?_, ?_⟩
  · intro hist msg raw parse hraw hparse
    simp [sendMessageToTutor, exchangeAttempt, hraw, hparse]
  · intro s hist0 msg0 t corr hpe
    constructor <;> simp [step, hpe, speakStep]

/-- C1 (witness): the amended statement evaluated at a concrete network
failure, a concrete parse failure on the raw text not json, and the concrete
in-flight exchange of c1State. -/
theorem C1_witness :
    (sendMessageToTutor true [] "Hi" NetOutcome.reject
        (fun _ => ParseOutcome.parseFail) =
      Except.ok { text := some connectFallback, correction := none }) ∧
    (sendMessageToTutor true [] "Hi" (NetOutcome.resolve (some "not json"))
        (fun _ => ParseOutcome.parseFail) =
      Except.ok { text := some (stripFences "not json"), correction := none }) ∧
    c1State.pendingExchange =
      some ([mkBotMsg (some "Hello!") none], "Hi", true) ∧
    ((step c1State (Event.exchangeResolve (some connectFallback) none)).1.chatHistory =
      c1State.chatHistory ++ [mkBotMsg (some connectFallback) none] ∧
     (step c1State (Event.exchangeResolve (some connectFallback) none)).2 =
      [Cmd.cancelSynthCmd, Cmd.speakCmd ((some connectFallback).getD "")]) :=
  ⟨C1_exchange_failure_resolves_and_commits.1 [] "Hi"
     (fun _ => ParseOutcome.parseFail),
   C1_exchange_failure_resolves_and_commits.2.1 [] "Hi" "not json"
     (fun _ => ParseOutcome.parseFail) (by decide) rfl,
   rfl,
   C1_exchange_failure_resolves_and_commits.2.2 c1State
     [mkBotMsg (some "Hello!") none] "Hi" (some connectFallback) none rfl⟩

/-- C2 (counterexample): after the session is stopped by the reset button
while an exchange is in flight, the late successful resolution still appends
the tutor Turn to the (cleared) transcript and, because the post-await code
reads the invocation-time sessionActive closure value, also issues synthesis
of the late reply, refuting that the late result neither appends a Turn nor
moves the session away from Inactive. -/
theorem C2_counterexample :
    c2State.sessionActive = false ∧ c2State.chatHistory = [] ∧
    c2State.pendingExchange.isSome = true ∧
    (step c2State (Event.exchangeResolve (some "Great!") none)).1.chatHistory =
      [mkBotMsg (some "Great!") none] ∧
    (step c2State (Event.exchangeResolve (some "Great!") none)).2 =
      [Cmd.cancelSynthCmd, Cmd.speakCmd "Great!"] := by
  refine ⟨rfl, rfl, rfl, rfl, rfl⟩

/-- C2 (amended): when the session is stopped while a tutor exchange is in
flight and the exchange later resolves, the late result is not discarded:
the post-await code of handleSend runs with the invocation-time sessionActive
closure value (always true, since sends are unreachable while the session is
inactive), so the tutor Turn is appended to the transcript and synthesis of
the reply is issued, registering a new utterance whose completion will
re-arm listening; only the sessionActive flag itself is left false by the
resolution. -/
theorem C2_late_result_not_discarded (s : ChatState) (hist0 : List Msg)
    (msg0 : String) (text : Option String) (corr : Option Correction)
    (hsa : s.sessionActive = false)
    (hpe : s.pendingExchange = some (hist0, msg0, true)) :
    (step s (Event.exchangeResolve text corr)).1.chatHistory =
      s.chatHistory ++ [mkBotMsg text corr] ∧
    (step s (Event.exchangeResolve text corr)).1.sessionActive = false ∧
    (step s (Event.exchangeResolve text corr)).1.utterance =
      some { text := text.getD "", hasCb := true, started := false } ∧
    (step s (Event.exchangeResolve text corr)).2 =
      [Cmd.cancelSynthCmd, Cmd.speakCmd (text.getD "")] ∧
    (step s (Event.exchangeResolve text corr)).1.isProcessing = false := by
  refine ⟨?_, ?_, ?_, ?_, ?_⟩ <;> simp [step, hpe, hsa, speakStep]

/-- C2 (witness): the amended statement evaluated at the concrete stopped
session with an in-flight exchange. -/
theorem C2_witness :
    c2State.sessionActive = false ∧
    c2State.pendingExchange =
      some ([mkBotMsg (some "Hi there") none], "I am fine", true) ∧
    ((step c2State (Event.exchangeResolve (some "Great!") none)).1.chatHistory =
      c2State.chatHistory ++ [mkBotMsg (some "Great!") none] ∧
    (step c2State (Event.exchangeResolve (some "Great!") none)).1.sessionActive =
      false ∧
    (step c2State (Event.exchangeResolve (some "Great!") none)).1.utterance =
      some { text := (some "Great!").getD "", hasCb := true, started := false } ∧
    (step c2State (Event.exchangeResolve (some "Great!") none)).2 =
      [Cmd.cancelSynthCmd, Cmd.speakCmd ((some "Great!").getD "")] ∧
    (step c2State (Event.exchangeResolve (some "Great!") none)).1.isProcessing =
      false) :=
  ⟨rfl, rfl,
   C2_late_result_not_discarded c2State [mkBotMsg (some "Hi there") none]
     "I am fine" (some "Great!") none rfl rfl⟩

/-- C3 (confirmed): whenever a controller step issues a speak command for a
tutor reply, that same atomic step has already appended the corresponding
tutor Turn to the transcript: the post-state transcript is the pre-state
transcript plus a model Turn carrying exactly the spoken text, so the
transcript write precedes playback start. -/
theorem C3_commit_before_speak (s : ChatState) (e : Event) (text : String)
    (hmem : Cmd.speakCmd text ∈ (step s e).2) :
    ∃ m, (step s e).1.chatHistory = s.chatHistory ++ [m] ∧
      m.role = Role.model ∧ m.text = text := by
  cases e with
  | startSession =>
      by_cases hsa : s.sessionActive = true <;>
        simp [step, hsa, handleStartSessionStep] at hmem
  | startResolve t =>
      cases hps : s.pendingStart with
      | false => simp [step, hps] at hmem
      | true =>
          simp only [step, hps, if_pos, speakStep] at hmem
          simp at hmem
          refine ⟨mkBotMsg (some t) none, by simp [step, hps, speakStep], rfl, ?_⟩
          simp [mkBotMsg, hmem]
  | exchangeResolve t corr =>
      cases hpe : s.pendingExchange with
      | none => simp [step, hpe] at hmem
      | some p =>
          obtain ⟨hist0, msg0, cap⟩ := p
          cases hcap : cap with
          | false => simp [step, hpe, hcap] at hmem
          | true =>
              simp only [step, hpe, hcap, speakStep] at hmem
              simp at hmem
              refine ⟨mkBotMsg t corr, by simp [step, hpe, hcap, speakStep], rfl, ?_⟩
              simp [mkBotMsg, hmem]
  | synthStart =>
      cases hu : s.utterance with
      | none => simp [step, hu] at hmem
      | some u => cases hus : u.started <;> simp [step, hu, hus] at hmem
  | synthEnd =>
      cases hu : s.utterance with
      | none => simp [step, hu] at hmem
      | some u => cases hus : u.started <;> simp [step, hu, hus] at hmem
  | synthError =>
      cases hu : s.utterance with
      | none => simp [step, hu] at hmem
      | some u => simp [step, hu] at hmem
  | settleFire =>
      cases hx : s.settleTimer with
      | none => simp [step, hx] at hmem
      | some n =>
          by_cases hr : s.recogActive = true <;>
            simp [step, hx, startListeningStep, hr] at hmem
  | recogStart => by_cases hr : s.recogActive = true <;> simp [step, hr] at hmem
  | recogResult t => by_cases hr : s.recogActive = true <;> simp [step, hr] at hmem
  | recogEnd => by_cases hr : s.recogActive = true <;> simp [step, hr] at hmem
  | recogError err =>
      by_cases hr : s.recogActive = true
      · by_cases he : err = "not-allowed" <;> simp [step, hr, he] at hmem
      · simp [step, hr] at hmem
  | autoSend =>
      by_cases hc : autoSendCond s
      · obtain ⟨c1, c2, c3, c4, c5⟩ := hc
        by_cases hr : s.recogActive = true <;>
          simp [step, autoSendCond, c1, c2, c3, c4, c5, handleSendStep, hr] at hmem
      · simp [step, hc] at hmem
  | micClick =>
      by_cases hsa : s.sessionActive = false
      · simp [step, hsa, handleStartSessionStep] at hmem
      · by_cases hl : s.isListening = true
        · simp [step, hsa, hl, stopListeningStep] at hmem
        · by_cases hr : s.recogActive = true <;>
            simp [step, hsa, hl, startListeningStep, hr] at hmem
  | resetClick => simp [step] at hmem

/-- C3 (witness): the statement evaluated at the concrete greeting
resolution of a freshly started session. -/
theorem C3_witness :
    Cmd.speakCmd "Hello!" ∈ (step c3State (Event.startResolve "Hello!")).2 ∧
    (∃ m, (step c3State (Event.startResolve "Hello!")).1.chatHistory =
      c3State.chatHistory ++ [m] ∧ m.role = Role.model ∧ m.text = "Hello!") :=
  ⟨by decide, C3_commit_before_speak c3State (Event.startResolve "Hello!")
      "Hello!" (by decide)⟩

/-- C4 (counterexample): pressing the mic toggle while the tutor is speaking
starts capture, after which Listening and Speaking hold simultaneously,
refuting the mutual-exclusion invariant over all event sequences that include
user actions. -/
theorem C4_counterexample :
    (run initState c4Trace).isListening = true ∧
    (run initState c4Trace).isSpeaking = true := by
  refine ⟨rfl, rfl⟩

/-- C4 (amended): along every event sequence of the autonomous conversation
loop, that is without the manual mic toggle, the reset button and
permission-denied capture errors, at most one of Listening, Speaking and
AwaitingReply holds at any instant and Inactive excludes all three. -/
theorem C4_mutex_autonomous (s : ChatState) (h : ReachableLoop s) :
    MutexOK s :=
  mutex_of_inv s (inv_reachable s h)

/-- C4 (witness): the amended statement evaluated at the state reached by a
full concrete autonomous conversation cycle. -/
theorem C4_witness :
    ReachableLoop (run initState c4LoopTrace) ∧
    MutexOK (run initState c4LoopTrace) :=
  ⟨⟨c4LoopTrace, by decide, rfl⟩,
   C4_mutex_autonomous (run initState c4LoopTrace)
     ⟨c4LoopTrace, by decide, rfl⟩⟩

/-- C5 (counterexample): while the greeting is being spoken the mic toggle
issues the capture-start command with synthesis still active, refuting that
capture is never started while synthesis is active. -/
theorem C5_counterexample :
    c5State.isSpeaking = true ∧
    Cmd.recogStartCmd ∈ (step c5State Event.micClick).2 := by
  refine ⟨rfl, by decide⟩

/-- C5 (amended): on the automatic path (all events of the autonomous loop),
the capture-start command is issued only by the firing of the fixed 500 ms
settle timer, which is armed exactly when synthesis reports completion or
failure; at that point synthesis is inactive, so speak-to-completion followed
by the settle delay is enforced, while the manual mic toggle (excluded here)
lacks that guard. -/
theorem C5_autonomous_capture_after_speech (s : ChatState) (e : Event)
    (h : ReachableLoop s) (ha : autonomousB e = true)
    (hmem : Cmd.recogStartCmd ∈ (step s e).2) :
    e = Event.settleFire ∧ s.isSpeaking = false ∧ s.utterance = none ∧
    s.settleTimer = some 500 := by
  have hInv := inv_reachable s h
  cases e with
  | startSession =>
      by_cases hsa : s.sessionActive = true <;>
        simp [step, hsa, handleStartSessionStep] at hmem
  | startResolve t =>
      cases hps : s.pendingStart <;> simp [step, hps, speakStep] at hmem
  | exchangeResolve t corr =>
      cases hpe : s.pendingExchange with
      | none => simp [step, hpe] at hmem
      | some p =>
          obtain ⟨hist0, msg0, cap⟩ := p
          cases hcap : cap <;> simp [step, hpe, hcap, speakStep] at hmem
  | synthStart =>
      cases hu : s.utterance with
      | none => simp [step, hu] at hmem
      | some u => cases hus : u.started <;> simp [step, hu, hus] at hmem
  | synthEnd =>
      cases hu : s.utterance with
      | none => simp [step, hu] at hmem
      | some u => cases hus : u.started <;> simp [step, hu, hus] at hmem
  | synthError =>
      cases hu : s.utterance with
      | none => simp [step, hu] at hmem
      | some u => simp [step, hu] at hmem
  | settleFire =>
      cases hx : s.settleTimer with
      | none => simp [step, hx] at hmem
      | some n =>
          obtain ⟨q1, q2, q3, q4, q5, q6, q7⟩ := hInv.settleQuiet (by simp [hx])
          refine ⟨rfl, q2, q1, ?_⟩
          rw [← hx]
          exact q7
  | recogStart => by_cases hr : s.recogActive = true <;> simp [step, hr] at hmem
  | recogResult t => by_cases hr : s.recogActive = true <;> simp [step, hr] at hmem
  | recogEnd => by_cases hr : s.recogActive = true <;> simp [step, hr] at hmem
  | recogError err =>
      by_cases hr : s.recogActive = true
      · by_cases he : err = "not-allowed" <;> simp [step, hr, he] at hmem
      · simp [step, hr] at hmem
  | autoSend =>
      by_cases hc : autoSendCond s
      · obtain ⟨c1, c2, c3, c4, c5⟩ := hc
        by_cases hr : s.recogActive = true <;>
          simp [step, autoSendCond, c1, c2, c3, c4, c5, handleSendStep, hr] at hmem
      · simp [step, hc] at hmem
  | micClick => simp [autonomousB] at ha
  | resetClick => simp [autonomousB] at ha

/-- C5 (witness): the amended statement evaluated right after the greeting
finished speaking, when the settle timer fires. -/
theorem C5_witness :
    ReachableLoop c5SettleState ∧ autonomousB Event.settleFire = true ∧
    Cmd.recogStartCmd ∈ (step c5SettleState Event.settleFire).2 ∧
    (Event.settleFire = Event.settleFire ∧ c5SettleState.isSpeaking = false ∧
     c5SettleState.utterance = none ∧ c5SettleState.settleTimer = some 500) :=
  ⟨⟨[Event.startSession, Event.startResolve "Hello!", Event.synthStart,
     Event.synthEnd], by decide, rfl⟩, rfl, by decide,
   C5_autonomous_capture_after_speech c5SettleState Event.settleFire
     ⟨[Event.startSession, Event.startResolve "Hello!", Event.synthStart,
       Event.synthEnd], by decide, rfl⟩ rfl (by decide)⟩

/-- C6 (confirmed): when the finalized utterance is empty or whitespace-only,
both the send handler and the auto-send bridge leave the state untouched and
issue no command: no user Turn is appended, no exchange call is made, and the
session stays in its idle-within-session state awaiting manual input. -/
theorem C6_empty_input_no_send (s : ChatState)
    (h : jsTrim s.inputText = "") :
    handleSendStep s = (s, []) ∧ step s Event.autoSend = (s, []) := by
  constructor
  · simp [handleSendStep, h]
  · simp [step, autoSendCond, h]

/-- C6 (witness): the statement evaluated at an active idle session whose
capture finalized three spaces. -/
theorem C6_witness :
    jsTrim c6State.inputText = "" ∧
    (handleSendStep c6State = (c6State, []) ∧
     step c6State Event.autoSend = (c6State, [])) :=
  ⟨rfl, C6_empty_input_no_send c6State rfl⟩

/-- C7 (confirmed): a not-allowed capture error forces the session to
Inactive and raises the dedicated microphone-permission alert, while every
other capture error kind leaves the session state untouched and raises no
alert: the permission-denied signal is distinct from a generic capture
error. -/
theorem C7_permission_denied_distinct (s : ChatState) (err : String)
    (hr : s.recogActive = true) :
    (err = "not-allowed" →
      (step s (Event.recogError err)).1.sessionActive = false ∧
      (step s (Event.recogError err)).1.isListening = false ∧
      (step s (Event.recogError err)).2 =
        [Cmd.alertCmd "Microphone access denied. Please enable permissions."]) ∧
    (err ≠ "not-allowed" →
      (step s (Event.recogError err)).1.sessionActive = s.sessionActive ∧
      (step s (Event.recogError err)).1.isListening = false ∧
      (step s (Event.recogError err)).2 = []) := by
  constructor <;> intro he <;> simp [step, hr, he]

/-- C7 (witness): the statement evaluated at a listening session for the
not-allowed error and for a generic no-speech error. -/
theorem C7_witness :
    c7State.recogActive = true ∧
    ((step c7State (Event.recogError "not-allowed")).1.sessionActive = false ∧
     (step c7State (Event.recogError "not-allowed")).1.isListening = false ∧
     (step c7State (Event.recogError "not-allowed")).2 =
       [Cmd.alertCmd "Microphone access denied. Please enable permissions."]) ∧
    ((step c7State (Event.recogError "no-speech")).1.sessionActive =
       c7State.sessionActive ∧
     (step c7State (Event.recogError "no-speech")).1.isListening = false ∧
     (step c7State (Event.recogError "no-speech")).2 = []) :=
  ⟨rfl,
   (C7_permission_denied_distinct c7State "not-allowed" rfl).1 rfl,
   (C7_permission_denied_distinct c7State "no-speech" rfl).2 (by decide)⟩

/-- C8 (counterexample): in src/screens/ChatScreen.tsx, with capture ended,
a non-empty finalized utterance, the session active and nothing in flight,
the auto-send effect does not send immediately: it arms a 1000 ms debounce
timer, refuting that the controller immediately transitions to
AwaitingReply. -/
theorem C8_counterexample :
    autoSendCond c8State ∧
    autoSendEffect c8State ≠ AutoSendAction.sendNow ∧
    autoSendEffect c8State = AutoSendAction.armDebounce 1000 := by
  refine ⟨by decide, by decide, by decide⟩

/-- C8 (amended): under the auto-advance condition the controller does
transition to AwaitingReply without additional user action, but in
src/screens/ChatScreen.tsx only after a fixed 1000 ms silence debounce,
whose expiry performs the send (committing the exchange with the utterance);
the src/unnamed/part_004 variant of the screen sends immediately on
end-of-speech. -/
theorem C8_auto_advance_debounced (s : ChatState) (hc : autoSendCond s) :
    autoSendEffect s = AutoSendAction.armDebounce 1000 ∧
    autoSendEffectImmediate s = AutoSendAction.sendNow ∧
    (step s Event.autoSend).1.isProcessing = true ∧
    (step s Event.autoSend).1.pendingExchange =
      some (s.chatHistory, s.inputText, s.sessionActive) ∧
    Cmd.exchangeCmd s.chatHistory s.inputText ∈ (step s Event.autoSend).2 := by
  obtain ⟨c1, c2, c3, c4, c5⟩ := hc
  refine ⟨?_, ?_, ?_, ?_, ?_⟩ <;>
    simp [autoSendEffect, autoSendEffectImmediate, autoSendCond, step,
          handleSendStep, c1, c2, c3, c4, c5]

/-- C8 (witness): the amended statement evaluated at the concrete idle
session holding the utterance Hello there. -/
theorem C8_witness :
    autoSendCond c8State ∧
    (autoSendEffect c8State = AutoSendAction.armDebounce 1000 ∧
     autoSendEffectImmediate c8State = AutoSendAction.sendNow ∧
     (step c8State Event.autoSend).1.isProcessing = true ∧
     (step c8State Event.autoSend).1.pendingExchange =
       some (c8State.chatHistory, c8State.inputText, c8State.sessionActive) ∧
     Cmd.exchangeCmd c8State.chatHistory c8State.inputText ∈
       (step c8State Event.autoSend).2) :=
  ⟨by decide, C8_auto_advance_debounced c8State (by decide)⟩

/-- C9 (confirmed): the request built for every tutor exchange carries the
new utterance unchanged and, as history, at most the last ten transcript
turns: a suffix of the projected transcript of length at most ten. -/
theorem C9_history_window_bounded (history : List Msg) (message : String) :
    (buildTutorRequest history message).history.length ≤ 10 ∧
    (buildTutorRequest history message).history <:+
      history.map toHistoryEntry ∧
    (buildTutorRequest history message).message = message := by
  refine ⟨?_, ?_, rfl⟩
  · simp only [buildTutorRequest, recentHistory, List.length_map,
      List.length_drop]
    omega
  · simp only [buildTutorRequest, recentHistory]
    rw [List.map_drop]
    exact List.drop_suffix _ _

/-- C10 (confirmed): for every history, utterance and oracle outcome, both
sendMessageToTutor and startChatSession resolve with a reply and never
reject: a missing API key, a network rejection and a JSON-parse failure each
produce a fallback reply, so the exception branches of their callers are
unreachable; the underlying attempts, by contrast, can fail, so the catch
handlers are not vacuous. -/
theorem C10_tutor_client_total :
    (∀ (key : Bool) (history : List Msg) (message : String)
        (net : NetOutcome) (parse : String → ParseOutcome),
      ∃ r, sendMessageToTutor key history message net parse = Except.ok r) ∧
    (∀ (key : Bool) (userName level : String) (net : NetOutcome)
        (parse : String → ParseOutcome),
      ∃ r, startChatSession key userName level net parse = Except.ok r) ∧
    (∃ h m net p, exchangeAttempt h m net p =
      Except.error ExchangeError.networkError) ∧
    (∃ u l net p, startAttempt u l net p =
      Except.error ExchangeError.parseError) := by
  refine ⟨?_, ?_, ?_, ?_⟩
  · intro key history message net parse
    unfold sendMessageToTutor
    by_cases hk : key = false
    · exact ⟨{ text := some noKeyFallback, correction := none }, by simp [hk]⟩
    · cases hx : exchangeAttempt history message net parse with
      | error e =>
          exact ⟨{ text := some connectFallback, correction := none },
            by simp [hk, hx]⟩
      | ok r => exact ⟨r, by simp [hk, hx]⟩
  · intro key userName level net parse
    unfold startChatSession
    by_cases hk : key = false
    · exact ⟨{ text := noKeyGreeting userName }, by simp [hk]⟩
    · cases hx : startAttempt userName level net parse with
      | error e => exact ⟨{ text := errorGreeting userName }, by simp [hk, hx]⟩
      | ok r => exact ⟨r, by simp [hk, hx]⟩
  · exact ⟨[], "", NetOutcome.reject, fun _ => ParseOutcome.parseFail, rfl⟩
  · exact ⟨"", "", NetOutcome.resolve none, fun _ => ParseOutcome.parseFail, rfl⟩

end Echo
